import Mathlib

/-!
Verification of the event-triggered EC2 launcher (`launch_ec2_lambda.py`).

The Python module is shallowly embedded:
* environment variables become an `Env` of `Option String` fields;
* the module-level required-variable check (`required_vars` / `missing_vars`
  and the `ValueError` raise) becomes `module_init`;
* Python's `key.split('/')`, `'/'.join(...)` and `str.replace(old, new)`
  are modelled character-by-character by `splitChar`, `joinChar` and
  `pyReplace` (fuel-based, structurally recursive);
* the f-string `user_data_template` is the literal template text with the
  two interpolation holes (`S3_BUCKET`, `TARGET_REGION`) made explicit;
* `lambda_handler` turns into a recursion over the record list which also
  returns the trace of issued `run_instances` requests, with the EC2 client
  abstracted as an oracle `respond : Nat → RunParams → Except String String`
  giving, per call index, either the launched instance id or an exception.
-/

set_option maxRecDepth 65536
set_option maxHeartbeats 2000000

/-- Python truthiness of an optional string: `None` and `""` are falsy. -/
def falsy : Option String → Bool
  | none => true
  | some s => s.isEmpty

/-- Python `str(x)` as used by f-string interpolation of a variable that is
either a string or `None`. -/
def pyStr : Option String → String
  | none => "None"
  | some s => s

/-- The process environment as read at module import time (lines 7-13 of
`launch_ec2_lambda.py`); every variable is read with `os.environ.get`, hence
optional at this point. -/
structure Env where
  AMI_ID : Option String
  INSTANCE_TYPE : Option String
  IAM_INSTANCE_PROFILE : Option String
  S3_BUCKET : Option String
  AWS_ACCOUNT_ID : Option String
  TARGET_REGION : Option String
  EC2_KEY_NAME : Option String
deriving DecidableEq

/-- The `required_vars` dict (lines 16-23), as an association list in the
dict's insertion order. -/
def required_vars (env : Env) : List (String × Option String) :=
  [("AMI_ID", env.AMI_ID),
   ("INSTANCE_TYPE", env.INSTANCE_TYPE),
   ("IAM_INSTANCE_PROFILE", env.IAM_INSTANCE_PROFILE),
   ("S3_BUCKET", env.S3_BUCKET),
   ("AWS_ACCOUNT_ID", env.AWS_ACCOUNT_ID),
   ("TARGET_REGION", env.TARGET_REGION)]

/-- `missing_vars` (line 25): names of required variables whose value is
falsy (absent or empty). -/
def missing_vars (env : Env) : List String :=
  ((required_vars env).filter (fun kv => falsy kv.2)).map Prod.fst

/-- The module-level guard (lines 26-27): raise `ValueError` naming the
missing variables, else import succeeds. -/
def module_init (env : Env) : Except String Unit :=
  if missing_vars env = [] then Except.ok ()
  else Except.error
    ("Missing required environment variables: " ++
      String.intercalate ", " (missing_vars env))

/-- Python `s.split(sep)` for a single-character separator, on the character
list: `""` splits to `[""]`, and every occurrence of the separator starts a
new group. -/
def splitChar (sep : Char) : List Char → List (List Char)
  | [] => [[]]
  | c :: cs =>
    if c = sep then [] :: splitChar sep cs
    else (splitChar sep cs).modifyHead (fun g => c :: g)

/-- Python `sep.join(groups)` for a single-character separator. -/
def joinChar (sep : Char) : List (List Char) → List Char
  | [] => []
  | [g] => g
  | g :: gs => g ++ sep :: joinChar sep gs

/-- `proof_dir` (line 157): `'/'.join(key.split('/')[:-1])` — the key with
its final path segment removed. -/
def proof_dir (key : String) : String :=
  String.mk (joinChar '/' ((splitChar '/' key.data).dropLast))

theorem splitChar_ne_nil (sep : Char) (l : List Char) : splitChar sep l ≠ [] := by
  cases l with
  | nil => simp [splitChar]
  | cons c cs =>
    simp only [splitChar]
    by_cases h : c = sep
    · simp [h]
    · simp only [if_neg h]
      cases hs : splitChar sep cs with
      | nil => exact absurd hs (splitChar_ne_nil sep cs)
      | cons g gs => simp [List.modifyHead]

theorem splitChar_append_sep (sep : Char) (xs ys : List Char) :
    splitChar sep (xs ++ sep :: ys) = splitChar sep xs ++ splitChar sep ys := by
  induction xs with
  | nil => simp [splitChar]
  | cons x xs ih =>
    by_cases h : x = sep
    · simp [splitChar, h, ih]
    · simp only [List.cons_append, splitChar, if_neg h, List.append_eq]
      rw [ih]
      cases hs : splitChar sep xs with
      | nil => exact absurd hs (splitChar_ne_nil sep xs)
      | cons g gs => simp [List.modifyHead]

theorem splitChar_of_not_mem {sep : Char} {l : List Char} (h : sep ∉ l) :
    splitChar sep l = [l] := by
  induction l with
  | nil => rfl
  | cons c cs ih =>
    have hc : ¬ c = sep := fun hc => h (by simp [hc])
    have hcs : sep ∉ cs := fun hm => h (List.mem_cons_of_mem _ hm)
    simp [splitChar, if_neg hc, ih hcs, List.modifyHead]

theorem joinChar_cons_cons (sep : Char) (g g' : List Char) (gs : List (List Char)) :
    joinChar sep (g :: g' :: gs) = g ++ sep :: joinChar sep (g' :: gs) := by
  rfl

theorem joinChar_splitChar (sep : Char) (l : List Char) :
    joinChar sep (splitChar sep l) = l := by
  induction l with
  | nil => rfl
  | cons c cs ih =>
    by_cases h : c = sep
    · subst h
      have hs' : splitChar c (c :: cs) = [] :: splitChar c cs := by
        simp [splitChar]
      rw [hs']
      cases hsp : splitChar c cs with
      | nil => exact absurd hsp (splitChar_ne_nil c cs)
      | cons g gs =>
        rw [joinChar_cons_cons]
        rw [hsp] at ih
        simp [ih]
    · simp only [splitChar, if_neg h]
      cases hs : splitChar sep cs with
      | nil => exact absurd hs (splitChar_ne_nil sep cs)
      | cons g gs =>
        rw [hs] at ih
        cases gs with
        | nil =>
          simp only [List.modifyHead]
          simp only [joinChar] at ih ⊢
          rw [ih]
        | cons g' gs' =>
          simp only [List.modifyHead, joinChar_cons_cons]
          rw [joinChar_cons_cons] at ih
          simp only [List.cons_append]
          exact congrArg (fun t => c :: t) ih

theorem proof_dir_append {d f : String} (hf : '/' ∉ f.data) :
    proof_dir (d ++ "/" ++ f) = d := by
  have hdata : (d ++ "/" ++ f).data = d.data ++ '/' :: f.data := by
    simp [String.data_append]
  unfold proof_dir
  rw [hdata, splitChar_append_sep, splitChar_of_not_mem hf,
      List.dropLast_concat, joinChar_splitChar]

theorem proof_dir_no_sep {key : String} (h : '/' ∉ key.data) :
    proof_dir key = "" := by
  unfold proof_dir
  rw [splitChar_of_not_mem h]
  rfl

/-- C3: the computed proof directory is the key with its final path segment
removed; the two concrete examples from the spec; and the no-separator case
gives the empty string. -/
theorem C3_proof_dir_spec :
    (∀ d f : String, '/' ∉ f.data → proof_dir (d ++ "/" ++ f) = d)
    ∧ proof_dir "proof-runs/2024-01-15/private_ledger.json" = "proof-runs/2024-01-15"
    ∧ (∀ key : String, '/' ∉ key.data → proof_dir key = "") := by
  refine ⟨fun d f hf => proof_dir_append hf, ?_, fun key h => proof_dir_no_sep h⟩
  decide

/-- Witness for C3 at concrete inputs. -/
theorem C3_proof_dir_spec_witness :
    proof_dir ("proof-runs/2024-01-15" ++ "/" ++ "private_ledger.json")
      = "proof-runs/2024-01-15"
    ∧ proof_dir "ledger.json" = "" := by
  exact ⟨C3_proof_dir_spec.1 "proof-runs/2024-01-15" "private_ledger.json" (by decide),
         C3_proof_dir_spec.2.2 "ledger.json" (by decide)⟩

/-- Boolean list-prefix test. -/
def isPrefixB : List Char → List Char → Bool
  | [], _ => true
  | _ :: _, [] => false
  | p :: ps, c :: cs => p == c && isPrefixB ps cs

/-- Boolean contiguous-sublist (substring) test. -/
def isInfixB (pat : List Char) : List Char → Bool
  | [] => isPrefixB pat []
  | c :: cs => isPrefixB pat (c :: cs) || isInfixB pat cs

/-- `containsSub s pat` holds when `pat` occurs contiguously in `s`
(Python's `pat in s`). -/
def containsSub (s pat : String) : Bool :=
  isInfixB pat.data s.data

theorem isPrefixB_append (pat : List Char) :
    ∀ l ys, isPrefixB pat l = true → isPrefixB pat (l ++ ys) = true := by
  induction pat with
  | nil => intro l ys _; rfl
  | cons p ps ih =>
    intro l ys h
    cases l with
    | nil => simp [isPrefixB] at h
    | cons c cs =>
      simp only [isPrefixB, Bool.and_eq_true, beq_iff_eq] at h ⊢
      exact ⟨h.1, ih cs ys h.2⟩

theorem isPrefixB_self_append (l ys : List Char) :
    isPrefixB l (l ++ ys) = true := by
  induction l with
  | nil => rfl
  | cons c cs ih => simp [isPrefixB, ih]

theorem isInfixB_append_right (pat : List Char) :
    ∀ l ys, isInfixB pat l = true → isInfixB pat (l ++ ys) = true := by
  intro l
  induction l with
  | nil =>
    intro ys h
    simp only [isInfixB] at h
    cases pat with
    | nil =>
      cases ys with
      | nil => rfl
      | cons y ys' => simp [isInfixB, isPrefixB]
    | cons p ps => simp [isPrefixB] at h
  | cons c cs ih =>
    intro ys h
    simp only [isInfixB, Bool.or_eq_true] at h
    rcases h with h | h
    · have := isPrefixB_append pat (c :: cs) ys h
      simp only [List.cons_append] at this ⊢
      simp [isInfixB, this]
    · have := ih ys h
      simp only [List.cons_append]
      simp [isInfixB, this]

theorem isInfixB_append_left (pat xs : List Char) :
    ∀ l, isInfixB pat l = true → isInfixB pat (xs ++ l) = true := by
  induction xs with
  | nil => intro l h; simpa using h
  | cons x xs ih =>
    intro l h
    simp only [List.cons_append]
    simp [isInfixB, ih l h]

theorem isInfixB_head_mem {p : Char} {ps : List Char} :
    ∀ {l : List Char}, isInfixB (p :: ps) l = true → p ∈ l := by
  intro l
  induction l with
  | nil => intro h; simp [isInfixB, isPrefixB] at h
  | cons c cs ih =>
    intro h
    simp only [isInfixB, Bool.or_eq_true] at h
    rcases h with h | h
    · simp only [isPrefixB, Bool.and_eq_true, beq_iff_eq] at h
      exact h.1 ▸ List.mem_cons_self c cs
    · exact List.mem_cons_of_mem c (ih h)

theorem isInfixB_eq_false {p : Char} {ps l : List Char} (h : p ∉ l) :
    isInfixB (p :: ps) l = false := by
  cases hi : isInfixB (p :: ps) l with
  | false => rfl
  | true => exact absurd (isInfixB_head_mem hi) h

/-- One step of Python `str.replace(old, new)` for a non-empty pattern
`p :: ps`, with an explicit fuel argument (always called with
`fuel = l.length`, which suffices): scan left to right, replace each
non-overlapping occurrence, never re-scan the replacement text. -/
def replaceFuel (p : Char) (ps repl : List Char) : Nat → List Char → List Char
  | _, [] => []
  | 0, l => l
  | fuel + 1, c :: cs =>
    if isPrefixB (p :: ps) (c :: cs)
    then repl ++ replaceFuel p ps repl fuel (cs.drop ps.length)
    else c :: replaceFuel p ps repl fuel cs

/-- Python `s.replace(pat, repl)` on character lists.  The module only ever
calls `replace` with the fixed non-empty pattern, so the empty-pattern
branch (where CPython would interleave `repl`) is never exercised and is
modelled as the identity. -/
def replaceList (pat repl l : List Char) : List Char :=
  match pat with
  | [] => l
  | p :: ps => replaceFuel p ps repl l.length l

/-- Python `s.replace(pat, repl)` (line 160 uses it with `'{{PROOF_DIR}}'`). -/
def pyReplace (s pat repl : String) : String :=
  String.mk (replaceList pat.data repl.data s.data)

theorem replaceFuel_congr (p : Char) (ps repl : List Char) :
    ∀ f1 f2 l, l.length ≤ f1 → l.length ≤ f2 →
      replaceFuel p ps repl f1 l = replaceFuel p ps repl f2 l := by
  intro f1
  induction f1 with
  | zero =>
    intro f2 l h1 _
    cases l with
    | nil => cases f2 <;> rfl
    | cons c cs => simp at h1
  | succ n ih =>
    intro f2 l h1 h2
    cases l with
    | nil => cases f2 <;> rfl
    | cons c cs =>
      cases f2 with
      | zero => simp at h2
      | succ m =>
        simp only [List.length_cons, Nat.add_le_add_iff_right] at h1 h2
        have hd : (cs.drop ps.length).length ≤ n :=
          le_trans (by simp [List.length_drop]) h1
        have hd2 : (cs.drop ps.length).length ≤ m :=
          le_trans (by simp [List.length_drop]) h2
        simp only [replaceFuel]
        rw [ih m cs h1 h2, ih m (cs.drop ps.length) hd hd2]

/-- `replaceFuel` at its canonical fuel (the length of the scanned list):
this is the actual Python `replace` semantics for pattern `p :: ps`. -/
def replaceTop (p : Char) (ps repl l : List Char) : List Char :=
  replaceFuel p ps repl l.length l

theorem replaceList_cons (p : Char) (ps repl l : List Char) :
    replaceList (p :: ps) repl l = replaceTop p ps repl l := rfl

theorem replaceTop_nil (p : Char) (ps repl : List Char) :
    replaceTop p ps repl [] = [] := rfl

theorem replaceTop_skip (p : Char) (ps repl : List Char) :
    ∀ xs rest, p ∉ xs →
      replaceTop p ps repl (xs ++ rest) = xs ++ replaceTop p ps repl rest := by
  intro xs
  induction xs with
  | nil => intro rest _; simp
  | cons x xs ih =>
    intro rest h
    have hx : (p == x) = false := by
      simp only [beq_eq_false_iff_ne, ne_eq]
      exact fun he => h (by simp [he])
    have hxs : p ∉ xs := fun hm => h (List.mem_cons_of_mem _ hm)
    show replaceFuel p ps repl (x :: (xs ++ rest)).length (x :: (xs ++ rest))
        = (x :: xs) ++ replaceTop p ps repl rest
    simp only [List.length_cons, replaceFuel, isPrefixB, hx, Bool.false_and,
      Bool.false_eq_true, if_false, List.cons_append, List.cons.injEq, true_and]
    exact ih rest hxs

theorem replaceTop_match (p : Char) (ps repl rest : List Char) :
    replaceTop p ps repl ((p :: ps) ++ rest) = repl ++ replaceTop p ps repl rest := by
  have hpre : isPrefixB (p :: ps) (p :: (ps ++ rest)) = true := by
    simpa using isPrefixB_self_append (p :: ps) rest
  have hdrop : (ps ++ rest).drop ps.length = rest := List.drop_left ps rest
  show replaceFuel p ps repl (p :: (ps ++ rest)).length (p :: (ps ++ rest))
      = repl ++ replaceTop p ps repl rest
  simp only [List.length_cons, replaceFuel, hpre, if_true]
  rw [hdrop]
  congr 1
  exact replaceFuel_congr p ps repl _ _ rest
    (by simp [List.length_append]) (le_refl _)

theorem replaceTop_of_not_mem (p : Char) (ps repl : List Char) {l : List Char}
    (h : p ∉ l) : replaceTop p ps repl l = l := by
  have hs := replaceTop_skip p ps repl l [] h
  simpa [replaceTop_nil] using hs

/-- The placeholder token left in the template for the per-event proof
directory (the doubled braces of the f-string render to a literal
`\x7b\x7bPROOF_DIR\x7d\x7d`). -/
def proof_dir_placeholder : String := "\x7b\x7bPROOF_DIR\x7d\x7d"

/-- Template text before the `S3_BUCKET` interpolation hole (start of the
f-string, lines 29-32). -/
def tmpl_pre : String := "#!/bin/bash\nset -euo pipefail\n\nS3_BUCKET=\""

/-- Template text between the `S3_BUCKET` hole and the placeholder
(end of line 32 through line 33). -/
def tmpl_mid_pre : String := "\"\nPROOF_DIR=\""

/-- Template text between the placeholder and the `TARGET_REGION` hole
(end of line 33 through line 34). -/
def tmpl_mid_post : String := "\"\nREGION=\""

/-- Template text after the `TARGET_REGION` hole: the whole embedded boot
workload (end of line 34 through line 146), opaque shell text. -/
def tmpl_post : String :=
  "\"\n" ++
  "USER_PROOFS_ALWAYS=\"true\"\n" ++
  "\n" ++
  "# Log all output\n" ++
  "exec > >(tee /var/log/user-data.log)\n" ++
  "exec 2>&1\n" ++
  "\n" ++
  "echo \"Starting bare metal proof processing...\"\n" ++
  "echo \"S3 Bucket: $S3_BUCKET\"\n" ++
  "echo \"Proof Directory: $PROOF_DIR\"\n" ++
  "\n" ++
  "# Update system and install dependencies\n" ++
  "yum update -y\n" ++
  "yum install -y git gcc gcc-c++ make openssl-devel awscli zip\n" ++
  "\n" ++
  "# Install Rust (as ec2-user)\n" ++
  "su - ec2-user -c \"curl --proto \x27=https\x27 --tlsv1.2 -sSf https://sh.rustup.rs | sh -s -- -y --default-toolchain nightly\"\n" ++
  "\n" ++
  "# Clone and build plonky2_por\n" ++
  "su - ec2-user -c \"\n" ++
  "    source ~/.cargo/env\n" ++
  "    cd ~\n" ++
  "    git clone https://github.com/otter-sec/por_v2\n" ++
  "    cd por_v2\n" ++
  "    cargo build --release --bin plonky2_por\n" ++
  "\"\n" ++
  "\n" ++
  "# Create 16GB ramdisk for working directory\n" ++
  "echo \"Setting up 16GB ramdisk for /workspace...\"\n" ++
  "mkdir -p /workspace\n" ++
  "mount -t tmpfs -o size=16G tmpfs /workspace\n" ++
  "chown ec2-user:ec2-user /workspace\n" ++
  "echo \"16GB ramdisk mounted at /workspace\"\n" ++
  "\n" ++
  "# Download private_ledger.json from S3\n" ++
  "echo \"Downloading private_ledger.json from S3...\"\n" ++
  "aws s3 cp \"s3://$S3_BUCKET/$PROOF_DIR/private_ledger.json\" /workspace/private_ledger.json --region $REGION\n" ++
  "\n" ++
  "# Check if the file was downloaded successfully\n" ++
  "if [ ! -f /workspace/private_ledger.json ]; then\n" ++
  "    echo \"Error: Failed to download private_ledger.json\"\n" ++
  "    exit 1\n" ++
  "fi\n" ++
  "\n" ++
  "echo \"Successfully downloaded private_ledger.json\"\n" ++
  "chown ec2-user:ec2-user /workspace/private_ledger.json\n" ++
  "\n" ++
  "# Run plonky2_por to generate proofs\n" ++
  "echo \"Running plonky2_por to generate proofs...\"\n" ++
  "cd /workspace\n" ++
  "\n" ++
  "su - ec2-user -c \"\n" ++
  "    cd /workspace\n" ++
  "    ~/por_v2/target/release/plonky2_por prove\n" ++
  "\"\n" ++
  "\n" ++
  "# Check if proof files were generated\n" ++
  "if [ ! -f \"/workspace/merkle_tree.json\" ] || [ ! -f \"/workspace/final_proof.json\" ]; then\n" ++
  "    echo \"Error: Proof generation failed - missing output files\"\n" ++
  "    exit 1\n" ++
  "fi\n" ++
  "\n" ++
  "echo \"Proof generation completed successfully\"\n" ++
  "\n" ++
  "# Create proofs.zip containing the main proof files\n" ++
  "echo \"Creating proofs.zip...\"\n" ++
  "cd /workspace\n" ++
  "zip proofs.zip merkle_tree.json final_proof.json\n" ++
  "\n" ++
  "if [ ! -f \"proofs.zip\" ]; then\n" ++
  "    echo \"Error: Failed to create proofs.zip\"\n" ++
  "    exit 1\n" ++
  "fi\n" ++
  "\n" ++
  "echo \"Successfully created proofs.zip\"\n" ++
  "\n" ++
  "# Check if we should upload user proofs\n" ++
  "UPLOAD_USER_PROOFS=false\n" ++
  "if [ \"$USER_PROOFS_ALWAYS\" = \"true\" ]; then\n" ++
  "    UPLOAD_USER_PROOFS=true\n" ++
  "else\n" ++
  "    CURRENT_MINUTE=$(date -u +\"%H%M\")\n" ++
  "    if [ \"$CURRENT_MINUTE\" -ge \"2355\" ] || [ \"$CURRENT_MINUTE\" -le \"0005\" ]; then\n" ++
  "        UPLOAD_USER_PROOFS=true\n" ++
  "    fi\n" ++
  "fi\n" ++
  "\n" ++
  "# Generate user inclusion proofs if needed\n" ++
  "if [ \"$UPLOAD_USER_PROOFS\" = \"true\" ]; then\n" ++
  "    echo \"Generating user inclusion proofs...\"\n" ++
  "    su - ec2-user -c \"\n" ++
  "        cd /workspace\n" ++
  "        ~/por_v2/target/release/plonky2_por prove-inclusion --all-batched\n" ++
  "    \"\n" ++
  "    echo \"User inclusion proofs generated\"\n" ++
  "fi\n" ++
  "\n" ++
  "# Upload all files back to S3\n" ++
  "echo \"Uploading results back to S3...\"\n" ++
  "aws s3 sync /workspace \"s3://$S3_BUCKET/$PROOF_DIR/\" --region $REGION --exclude \"private_ledger.json\" --exclude \"proofs.zip\"\n" ++
  "\n" ++
  "# Upload proofs.zip with public read access\n" ++
  "echo \"Uploading proofs.zip with public access...\"\n" ++
  "aws s3 cp /workspace/proofs.zip \"s3://$S3_BUCKET/$PROOF_DIR/proofs.zip\" --region $REGION --acl public-read\n" ++
  "\n" ++
  "echo \"Proof processing completed successfully!\"\n" ++
  "echo \"Results uploaded to: s3://$S3_BUCKET/$PROOF_DIR/\"\n" ++
  "echo \"Public download URL: https://$S3_BUCKET.s3.$REGION.amazonaws.com/$PROOF_DIR/proofs.zip\"\n" ++
  "\n" ++
  "# Terminate the instance\n" ++
  "INSTANCE_ID=$(curl -s http://169.254.169.254/latest/meta-data/instance-id)\n" ++
  "aws ec2 terminate-instances --instance-ids $INSTANCE_ID --region $REGION\n"

/-- The f-string `user_data_template` (lines 29-146) as a function of the
two interpolated configuration values. -/
def user_data_template_of (s3Bucket region : String) : String :=
  tmpl_pre ++ s3Bucket ++ (tmpl_mid_pre ++ proof_dir_placeholder ++ tmpl_mid_post)
    ++ region ++ tmpl_post

/-- `user_data_template` as built at module import time from the
environment. -/
def user_data_template (env : Env) : String :=
  user_data_template_of (pyStr env.S3_BUCKET) (pyStr env.TARGET_REGION)

/-- The per-record substitution (line 160):
`user_data_template.replace('\x7b\x7bPROOF_DIR\x7d\x7d', proof_dir)`. -/
def substitute_proof_dir (tmpl dirVal : String) : String :=
  pyReplace tmpl proof_dir_placeholder dirVal

/-- `user_data` for one record (lines 157-160). -/
def user_data (env : Env) (key : String) : String :=
  substitute_proof_dir (user_data_template env) (proof_dir key)

/-- The placeholder without its first character, for pattern decomposition. -/
def placeholder_tail : String := "\x7bPROOF_DIR\x7d\x7d"

theorem proof_dir_placeholder_eq :
    proof_dir_placeholder.data = '{' :: placeholder_tail.data := by decide

theorem replaceTop_match_cons (p : Char) (ps repl rest : List Char) :
    replaceTop p ps repl (p :: (ps ++ rest)) = repl ++ replaceTop p ps repl rest := by
  have h := replaceTop_match p ps repl rest
  simpa using h

/-- Behaviour of the `PROOF_DIR` substitution on the rendered template, for
any interpolated bucket and region containing no brace: the placeholder
occurrence is replaced by the directory value and everything else is kept
verbatim. -/
theorem no_brace_append {a b : String} (ha : '{' ∉ a.data)
    (hb : '{' ∉ b.data) : '{' ∉ (a ++ b).data := by
  rw [String.data_append]
  intro hm
  rcases List.mem_append.mp hm with h | h
  · exact ha h
  · exact hb h

theorem tmpl_pre_no_brace : '{' ∉ tmpl_pre.data := by decide

theorem tmpl_mid_pre_no_brace : '{' ∉ tmpl_mid_pre.data := by decide

theorem tmpl_mid_post_no_brace : '{' ∉ tmpl_mid_post.data := by decide

theorem tmpl_post_no_brace : '{' ∉ tmpl_post.data := by
  unfold tmpl_post
  repeat apply no_brace_append
  all_goals decide

theorem substitute_decomp (b r d : String)
    (hb : '{' ∉ b.data) (hr : '{' ∉ r.data) :
    (substitute_proof_dir (user_data_template_of b r) d).data
      = tmpl_pre.data ++ (b.data ++ (tmpl_mid_pre.data ++ (d.data
        ++ (tmpl_mid_post.data ++ (r.data ++ tmpl_post.data))))) := by
  have hpre := tmpl_pre_no_brace
  have hmp := tmpl_mid_pre_no_brace
  have hmq := tmpl_mid_post_no_brace
  have hpost := tmpl_post_no_brace
  have h0 : (substitute_proof_dir (user_data_template_of b r) d).data
      = replaceList proof_dir_placeholder.data d.data
          (user_data_template_of b r).data := rfl
  rw [h0, proof_dir_placeholder_eq, replaceList_cons]
  have h1 : (user_data_template_of b r).data
      = tmpl_pre.data ++ (b.data ++ (tmpl_mid_pre.data
          ++ ('{' :: (placeholder_tail.data ++ (tmpl_mid_post.data
          ++ (r.data ++ tmpl_post.data)))))) := by
    simp [user_data_template_of, String.data_append, proof_dir_placeholder_eq]
  rw [h1,
    replaceTop_skip _ _ _ tmpl_pre.data _ hpre,
    replaceTop_skip _ _ _ b.data _ hb,
    replaceTop_skip _ _ _ tmpl_mid_pre.data _ hmp,
    replaceTop_match_cons,
    replaceTop_skip _ _ _ tmpl_mid_post.data _ hmq,
    replaceTop_skip _ _ _ r.data _ hr,
    replaceTop_of_not_mem _ _ _ hpost]

theorem isInfixB_of_prefix {pat l : List Char} (h : isPrefixB pat l = true) :
    isInfixB pat l = true := by
  cases l with
  | nil => simpa [isInfixB] using h
  | cons c cs => simp [isInfixB, h]

theorem isInfixB_self_append (pat ys : List Char) :
    isInfixB pat (pat ++ ys) = true :=
  isInfixB_of_prefix (isPrefixB_self_append pat ys)

/-- C4: rendering the boot script for the proof directory `"d1"` — for any
startup configuration whose interpolated bucket and region contain no brace
character — yields a script containing the literal `PROOF_DIR="d1"` and no
remaining placeholder token. -/
theorem C4_render_d1 (env : Env)
    (hb : '{' ∉ (pyStr env.S3_BUCKET).data)
    (hr : '{' ∉ (pyStr env.TARGET_REGION).data) :
    containsSub (substitute_proof_dir (user_data_template env) "d1")
      "PROOF_DIR=\"d1\"" = true
    ∧ containsSub (substitute_proof_dir (user_data_template env) "d1")
      proof_dir_placeholder = false := by
  have hd : (substitute_proof_dir (user_data_template env) "d1").data
      = tmpl_pre.data ++ ((pyStr env.S3_BUCKET).data ++ (tmpl_mid_pre.data
        ++ ("d1".data ++ (tmpl_mid_post.data ++ ((pyStr env.TARGET_REGION).data
        ++ tmpl_post.data))))) :=
    substitute_decomp _ _ _ hb hr
  constructor
  · unfold containsSub
    rw [hd]
    apply isInfixB_append_left
    apply isInfixB_append_left
    have hassoc : tmpl_mid_pre.data ++ ("d1".data ++ (tmpl_mid_post.data
        ++ ((pyStr env.TARGET_REGION).data ++ tmpl_post.data)))
        = (tmpl_mid_pre.data ++ "d1".data ++ tmpl_mid_post.data)
          ++ ((pyStr env.TARGET_REGION).data ++ tmpl_post.data) := by
      simp [List.append_assoc]
    rw [hassoc]
    apply isInfixB_append_right
    decide
  · unfold containsSub
    rw [proof_dir_placeholder_eq]
    apply isInfixB_eq_false
    rw [hd]
    intro hmem
    simp only [List.mem_append] at hmem
    rcases hmem with h | h | h | h | h | h | h
    · exact tmpl_pre_no_brace h
    · exact hb h
    · exact tmpl_mid_pre_no_brace h
    · exact (by decide : '{' ∉ "d1".data) h
    · exact tmpl_mid_post_no_brace h
    · exact hr h
    · exact tmpl_post_no_brace h

/-- A concrete valid startup configuration, for witnesses. -/
def env0 : Env :=
  { AMI_ID := some "ami-0123456789abcdef0"
    INSTANCE_TYPE := some "c5.large"
    IAM_INSTANCE_PROFILE := some "proof-runner"
    S3_BUCKET := some "por-bucket"
    AWS_ACCOUNT_ID := some "123456789012"
    TARGET_REGION := some "us-east-1"
    EC2_KEY_NAME := none }

/-- Witness for C4 at the concrete configuration `env0`. -/
theorem C4_render_d1_witness :
    containsSub (substitute_proof_dir (user_data_template env0) "d1")
      "PROOF_DIR=\"d1\"" = true
    ∧ containsSub (substitute_proof_dir (user_data_template env0) "d1")
      proof_dir_placeholder = false :=
  C4_render_d1 env0 (by decide) (by decide)

/-- C8: the proof-directory value is inserted verbatim, with no re-scanning
of the inserted text: for the key whose directory prefix is itself the
literal placeholder token, the rendered boot script still contains the
placeholder token. -/
theorem C8_no_rescan :
    proof_dir "\x7b\x7bPROOF_DIR\x7d\x7d/private_ledger.json" = proof_dir_placeholder
    ∧ containsSub (user_data env0 "\x7b\x7bPROOF_DIR\x7d\x7d/private_ledger.json")
      proof_dir_placeholder = true := by
  have hpd : proof_dir "\x7b\x7bPROOF_DIR\x7d\x7d/private_ledger.json"
      = proof_dir_placeholder := by decide
  refine ⟨hpd, ?_⟩
  unfold user_data
  rw [hpd]
  unfold containsSub
  have hd := substitute_decomp (pyStr env0.S3_BUCKET) (pyStr env0.TARGET_REGION)
    proof_dir_placeholder (by decide) (by decide)
  show isInfixB proof_dir_placeholder.data
    (substitute_proof_dir
      (user_data_template_of (pyStr env0.S3_BUCKET) (pyStr env0.TARGET_REGION))
      proof_dir_placeholder).data = true
  rw [hd]
  apply isInfixB_append_left
  apply isInfixB_append_left
  apply isInfixB_append_left
  exact isInfixB_self_append _ _

/-- One S3 notification record, reduced to the two fields the handler reads
(lines 152-153): `record['s3']['bucket']['name']` and
`record['s3']['object']['key']`. -/
structure S3Record where
  bucket : String
  key : String
deriving DecidableEq

/-- The keyword arguments passed to `ec2.run_instances` (lines 164-175).
The three identifiers are carried as the optional strings the module-level
variables hold; `keyName` is `none` exactly when the `KeyName` key is absent
from the dict. -/
structure RunParams where
  imageId : Option String
  instanceType : Option String
  iamInstanceProfileName : Option String
  userData : String
  minCount : Nat
  maxCount : Nat
  keyName : Option String
deriving DecidableEq

/-- The `run_params` dict built for one record (lines 164-175): fixed
configuration, the rendered user data, `MinCount = MaxCount = 1`, and
`KeyName` only when `EC2_KEY_NAME` is truthy. -/
def run_params (env : Env) (key : String) : RunParams :=
  { imageId := env.AMI_ID
    instanceType := env.INSTANCE_TYPE
    iamInstanceProfileName := env.IAM_INSTANCE_PROFILE
    userData := user_data env key
    minCount := 1
    maxCount := 1
    keyName := if falsy env.EC2_KEY_NAME then none else env.EC2_KEY_NAME }

/-- Python `repr` of a list of strings, as f-string interpolation of
`launched_instances` renders it (single-quoted elements). -/
def pyListRepr (l : List String) : String :=
  "[" ++ String.intercalate ", " (l.map (fun s => "\x27" ++ s ++ "\x27")) ++ "]"

/-- The success payload (lines 187-190). -/
structure LambdaResult where
  statusCode : Nat
  body : String
deriving DecidableEq

/-- The body of the success result (line 189). -/
def successBody (launched : List String) : String :=
  "Successfully launched " ++ toString launched.length ++ " instance(s): "
    ++ pyListRepr launched

/-- The `for record in event['Records']` loop (lines 151-185), abstracting
`ec2.run_instances` as an oracle `respond` from call index and request
parameters to either the launched instance id (the
`response['Instances'][0]['InstanceId']` of a successful call) or a raised
exception.  Returns the trace of issued requests together with either the
propagated exception or the accumulated `launched_instances` list. -/
def processRecords (env : Env) (respond : Nat → RunParams → Except String String) :
    List S3Record → Nat → List String →
      List RunParams × Except String (List String)
  | [], _, launched => ([], Except.ok launched)
  | r :: rs, idx, launched =>
    let params := run_params env r.key
    match respond idx params with
    | Except.error e => ([params], Except.error e)
    | Except.ok iid =>
      let rest := processRecords env respond rs (idx + 1) (launched ++ [iid])
      (params :: rest.1, rest.2)

/-- `lambda_handler` (lines 148-190): process every record in order; on
success return status 200 with the count and identifier list, on failure
propagate the exception.  The first component is the trace of issued
`run_instances` requests. -/
def lambda_handler (env : Env) (respond : Nat → RunParams → Except String String)
    (records : List S3Record) :
    List RunParams × Except String LambdaResult :=
  let out := processRecords env respond records 0 []
  (out.1,
   out.2.map (fun launched =>
     { statusCode := 200, body := successBody launched }))

theorem processRecords_ok (env : Env)
    (respond : Nat → RunParams → Except String String) (ids : Nat → String)
    (hresp : ∀ i p, respond i p = Except.ok (ids i)) :
    ∀ rs idx launched,
      processRecords env respond rs idx launched
        = (rs.map (fun r => run_params env r.key),
           Except.ok (launched ++ (List.range' idx rs.length).map ids)) := by
  intro rs
  induction rs with
  | nil => intro idx launched; simp [processRecords]
  | cons r rs ih =>
    intro idx launched
    simp only [processRecords, hresp idx (run_params env r.key)]
    rw [ih (idx + 1) (launched ++ [ids idx])]
    simp [List.range'_succ]

/-- C1: for a batch where every provisioning call succeeds, exactly one
request is issued per record, in order, each with `MinCount = MaxCount = 1`,
and the handler returns status 200 with the count and the launched
identifiers in launch order. -/
theorem C1_batch_success (env : Env)
    (respond : Nat → RunParams → Except String String) (ids : Nat → String)
    (records : List S3Record)
    (hresp : ∀ i p, respond i p = Except.ok (ids i)) :
    (lambda_handler env respond records).1
        = records.map (fun r => run_params env r.key)
    ∧ (lambda_handler env respond records).1.length = records.length
    ∧ (∀ p ∈ (lambda_handler env respond records).1,
        p.minCount = 1 ∧ p.maxCount = 1)
    ∧ (lambda_handler env respond records).2
        = Except.ok { statusCode := 200,
                      body := successBody ((List.range records.length).map ids) } := by
  have h := processRecords_ok env respond ids hresp records 0 []
  have hl : lambda_handler env respond records
      = (records.map (fun r => run_params env r.key),
         Except.ok { statusCode := 200,
                     body := successBody ((List.range records.length).map ids) }) := by
    unfold lambda_handler
    rw [h]
    simp [Except.map, List.range_eq_range']
  refine ⟨by rw [hl], by rw [hl]; simp, ?_, by rw [hl]⟩
  intro p hp
  rw [hl] at hp
  simp only [List.mem_map] at hp
  obtain ⟨r, _, hpr⟩ := hp
  subst hpr
  exact ⟨rfl, rfl⟩

theorem processRecords_fail (env : Env)
    (respond : Nat → RunParams → Except String String) (e : String) :
    ∀ m rs idx launched, m < rs.length →
      (∀ i p, i < m → ∃ iid, respond (idx + i) p = Except.ok iid) →
      (∀ p, respond (idx + m) p = Except.error e) →
      processRecords env respond rs idx launched
        = ((rs.take (m + 1)).map (fun r => run_params env r.key),
           Except.error e) := by
  intro m
  induction m with
  | zero =>
    intro rs idx launched hlen _ hfail
    cases rs with
    | nil => simp at hlen
    | cons r rs =>
      have hf := hfail (run_params env r.key)
      rw [Nat.add_zero] at hf
      simp [processRecords, hf]
  | succ m ih =>
    intro rs idx launched hlen hsucc hfail
    cases rs with
    | nil => simp at hlen
    | cons r rs =>
      obtain ⟨iid, hok⟩ := hsucc 0 (run_params env r.key) (Nat.succ_pos m)
      rw [Nat.add_zero] at hok
      have hih := ih rs (idx + 1) (launched ++ [iid])
        (Nat.lt_of_succ_lt_succ (by simpa using hlen))
        (fun i p hi => by
          have hs := hsucc (i + 1) p (Nat.succ_lt_succ hi)
          rwa [show idx + (i + 1) = idx + 1 + i by omega] at hs)
        (fun p => by
          have hf := hfail p
          rwa [show idx + (m + 1) = idx + 1 + m by omega] at hf)
      simp [processRecords, hok, hih]

/-- C2: if the provisioning call fails on record `k` (1-indexed) and
succeeds on all earlier records, exactly `k` calls are attempted (the
requests for the first `k` records, in order), no success result is
returned, and the handler propagates the provisioning error. -/
theorem C2_fail_fast (env : Env)
    (respond : Nat → RunParams → Except String String)
    (records : List S3Record) (k : Nat) (e : String)
    (hk1 : 1 ≤ k) (hk2 : k ≤ records.length)
    (hsucc : ∀ i p, i + 1 < k → ∃ iid, respond i p = Except.ok iid)
    (hfail : ∀ p, respond (k - 1) p = Except.error e) :
    (lambda_handler env respond records).1
        = (records.take k).map (fun r => run_params env r.key)
    ∧ (lambda_handler env respond records).1.length = k
    ∧ (lambda_handler env respond records).2 = Except.error e := by
  have hm : k - 1 < records.length := by omega
  have h := processRecords_fail env respond e (k - 1) records 0 []
    hm
    (fun i p hi => by
      rw [Nat.zero_add]
      exact hsucc i p (by omega))
    (fun p => by rw [Nat.zero_add]; exact hfail p)
  rw [show k - 1 + 1 = k by omega] at h
  have hl : lambda_handler env respond records
      = ((records.take k).map (fun r => run_params env r.key),
         Except.error e) := by
    unfold lambda_handler
    rw [h]
    rfl
  refine ⟨by rw [hl], ?_, by rw [hl]⟩
  rw [hl]
  simp [List.length_take]
  omega

/-- C9: on an empty record batch the handler issues no provisioning call,
raises nothing, and returns status 200 reporting zero instances and an
empty identifier list. -/
theorem C9_empty_batch (env : Env)
    (respond : Nat → RunParams → Except String String) :
    lambda_handler env respond []
      = ([], Except.ok { statusCode := 200,
                         body := "Successfully launched 0 instance(s): []" }) := by
  rfl

theorem processRecords_mem (env : Env)
    (respond : Nat → RunParams → Except String String) :
    ∀ rs idx launched p, p ∈ (processRecords env respond rs idx launched).1 →
      ∃ r ∈ rs, p = run_params env r.key := by
  intro rs
  induction rs with
  | nil => intro idx launched p hp; simp [processRecords] at hp
  | cons r rs ih =>
    intro idx launched p hp
    simp only [processRecords] at hp
    cases hresp : respond idx (run_params env r.key) with
    | error e =>
      rw [hresp] at hp
      simp at hp
      exact ⟨r, by simp, hp⟩
    | ok iid =>
      rw [hresp] at hp
      simp at hp
      rcases hp with hp | hp
      · exact ⟨r, by simp, hp⟩
      · obtain ⟨r', hr', hpr⟩ := ih (idx + 1) (launched ++ [iid]) p hp
        exact ⟨r', by simp [hr'], hpr⟩

/-- C6: every issued provisioning request carries no `KeyName` when
`EC2_KEY_NAME` is unset, and carries `KeyName = "mykey"` when
`EC2_KEY_NAME` is set to `"mykey"`. -/
theorem C6_key_name (env : Env)
    (respond : Nat → RunParams → Except String String)
    (records : List S3Record) (p : RunParams)
    (hp : p ∈ (lambda_handler env respond records).1) :
    (env.EC2_KEY_NAME = none → p.keyName = none)
    ∧ (env.EC2_KEY_NAME = some "mykey" → p.keyName = some "mykey") := by
  obtain ⟨r, _, hpr⟩ := processRecords_mem env respond records 0 [] p hp
  subst hpr
  constructor
  · intro h; simp [run_params, h, falsy]
  · intro h
    show (if falsy env.EC2_KEY_NAME then none else env.EC2_KEY_NAME) = some "mykey"
    rw [h]
    decide

/-- C10: an empty-string `EC2_KEY_NAME` is falsy, hence treated like unset:
no issued provisioning request carries a `KeyName`. -/
theorem C10_empty_key_name (env : Env)
    (respond : Nat → RunParams → Except String String)
    (records : List S3Record) (p : RunParams)
    (henv : env.EC2_KEY_NAME = some "")
    (hp : p ∈ (lambda_handler env respond records).1) :
    p.keyName = none := by
  obtain ⟨r, _, hpr⟩ := processRecords_mem env respond records 0 [] p hp
  subst hpr
  show (if falsy env.EC2_KEY_NAME then none else env.EC2_KEY_NAME) = none
  rw [henv]
  decide

/-- C7: the handler reads only the object key of each record: two batches
with pairwise equal keys (buckets arbitrary) yield identical request traces
and, against the same provisioning oracle, identical results. -/
theorem C7_only_key_used (env : Env)
    (respond : Nat → RunParams → Except String String)
    (records1 records2 : List S3Record)
    (hk : records1.map S3Record.key = records2.map S3Record.key) :
    lambda_handler env respond records1 = lambda_handler env respond records2 := by
  suffices h : ∀ rs1 rs2 : List S3Record, ∀ idx launched,
      rs1.map S3Record.key = rs2.map S3Record.key →
      processRecords env respond rs1 idx launched
        = processRecords env respond rs2 idx launched by
    unfold lambda_handler
    rw [h records1 records2 0 [] hk]
  intro rs1
  induction rs1 with
  | nil =>
    intro rs2 idx launched hkk
    cases rs2 with
    | nil => rfl
    | cons r2 rs2' => simp at hkk
  | cons r rs ih =>
    intro rs2 idx launched hkk
    cases rs2 with
    | nil => simp at hkk
    | cons r2 rs2' =>
      simp only [List.map_cons, List.cons.injEq] at hkk
      obtain ⟨hkey, hrest⟩ := hkk
      simp only [processRecords, hkey]
      cases hresp : respond idx (run_params env r2.key) with
      | error e => rfl
      | ok iid =>
        have hred := ih rs2' (idx + 1) (launched ++ [iid]) hrest
        simp [hred]

/-- C5: startup succeeds exactly when all six required configuration values
are present and non-empty; otherwise it fails with a configuration error
whose message names exactly the missing-or-empty required fields (in the
dict's fixed order). -/
theorem C5_startup (env : Env) :
    (module_init env = Except.ok () ↔
      (falsy env.AMI_ID = false ∧ falsy env.INSTANCE_TYPE = false
        ∧ falsy env.IAM_INSTANCE_PROFILE = false ∧ falsy env.S3_BUCKET = false
        ∧ falsy env.AWS_ACCOUNT_ID = false ∧ falsy env.TARGET_REGION = false))
    ∧ (module_init env ≠ Except.ok () →
        module_init env = Except.error
          ("Missing required environment variables: "
            ++ String.intercalate ", " (missing_vars env)))
    ∧ ("AMI_ID" ∈ missing_vars env ↔ falsy env.AMI_ID = true)
    ∧ ("INSTANCE_TYPE" ∈ missing_vars env ↔ falsy env.INSTANCE_TYPE = true)
    ∧ ("IAM_INSTANCE_PROFILE" ∈ missing_vars env
        ↔ falsy env.IAM_INSTANCE_PROFILE = true)
    ∧ ("S3_BUCKET" ∈ missing_vars env ↔ falsy env.S3_BUCKET = true)
    ∧ ("AWS_ACCOUNT_ID" ∈ missing_vars env ↔ falsy env.AWS_ACCOUNT_ID = true)
    ∧ ("TARGET_REGION" ∈ missing_vars env ↔ falsy env.TARGET_REGION = true) := by
  have hmv : missing_vars env
      = (if falsy env.AMI_ID then ["AMI_ID"] else [])
        ++ (if falsy env.INSTANCE_TYPE then ["INSTANCE_TYPE"] else [])
        ++ (if falsy env.IAM_INSTANCE_PROFILE then ["IAM_INSTANCE_PROFILE"] else [])
        ++ (if falsy env.S3_BUCKET then ["S3_BUCKET"] else [])
        ++ (if falsy env.AWS_ACCOUNT_ID then ["AWS_ACCOUNT_ID"] else [])
        ++ (if falsy env.TARGET_REGION then ["TARGET_REGION"] else []) := by
    simp only [missing_vars, required_vars, List.filter]
    cases falsy env.AMI_ID <;> cases falsy env.INSTANCE_TYPE <;>
      cases falsy env.IAM_INSTANCE_PROFILE <;> cases falsy env.S3_BUCKET <;>
      cases falsy env.AWS_ACCOUNT_ID <;> cases falsy env.TARGET_REGION <;> simp
  refine ⟨?_, ?_, ?_, ?_, ?_, ?_, ?_, ?_⟩
  · unfold module_init
    rw [hmv]
    cases hA : falsy env.AMI_ID <;> cases hB : falsy env.INSTANCE_TYPE <;>
      cases hC : falsy env.IAM_INSTANCE_PROFILE <;> cases hD : falsy env.S3_BUCKET <;>
      cases hE : falsy env.AWS_ACCOUNT_ID <;> cases hF : falsy env.TARGET_REGION <;>
      simp
  · intro hne
    unfold module_init at hne ⊢
    by_cases hmz : missing_vars env = []
    · exact absurd (by simp [hmz]) hne
    · simp [hmz]
  · rw [hmv]
    cases falsy env.AMI_ID <;> cases falsy env.INSTANCE_TYPE <;>
      cases falsy env.IAM_INSTANCE_PROFILE <;> cases falsy env.S3_BUCKET <;>
      cases falsy env.AWS_ACCOUNT_ID <;> cases falsy env.TARGET_REGION <;> simp
  · rw [hmv]
    cases falsy env.AMI_ID <;> cases falsy env.INSTANCE_TYPE <;>
      cases falsy env.IAM_INSTANCE_PROFILE <;> cases falsy env.S3_BUCKET <;>
      cases falsy env.AWS_ACCOUNT_ID <;> cases falsy env.TARGET_REGION <;> simp
  · rw [hmv]
    cases falsy env.AMI_ID <;> cases falsy env.INSTANCE_TYPE <;>
      cases falsy env.IAM_INSTANCE_PROFILE <;> cases falsy env.S3_BUCKET <;>
      cases falsy env.AWS_ACCOUNT_ID <;> cases falsy env.TARGET_REGION <;> simp
  · rw [hmv]
    cases falsy env.AMI_ID <;> cases falsy env.INSTANCE_TYPE <;>
      cases falsy env.IAM_INSTANCE_PROFILE <;> cases falsy env.S3_BUCKET <;>
      cases falsy env.AWS_ACCOUNT_ID <;> cases falsy env.TARGET_REGION <;> simp
  · rw [hmv]
    cases falsy env.AMI_ID <;> cases falsy env.INSTANCE_TYPE <;>
      cases falsy env.IAM_INSTANCE_PROFILE <;> cases falsy env.S3_BUCKET <;>
      cases falsy env.AWS_ACCOUNT_ID <;> cases falsy env.TARGET_REGION <;> simp
  · rw [hmv]
    cases falsy env.AMI_ID <;> cases falsy env.INSTANCE_TYPE <;>
      cases falsy env.IAM_INSTANCE_PROFILE <;> cases falsy env.S3_BUCKET <;>
      cases falsy env.AWS_ACCOUNT_ID <;> cases falsy env.TARGET_REGION <;> simp

/-- Instance ids returned by the all-success oracle, one per call index. -/
def idsW : Nat → String := fun i => "i-" ++ toString i

/-- A provisioning oracle that succeeds on every call. -/
def respondAllOk : Nat → RunParams → Except String String :=
  fun i _ => Except.ok (idsW i)

/-- A provisioning oracle that succeeds on the first call and fails on
every later one. -/
def respondFailAt2 : Nat → RunParams → Except String String :=
  fun i _ => if i = 0 then Except.ok "i-0" else Except.error "boom"

/-- A concrete two-record batch. -/
def recordsW : List S3Record :=
  [{ bucket := "bucket-a", key := "proof-runs/2024-01-15/private_ledger.json" },
   { bucket := "bucket-b", key := "ledger.json" }]

/-- `env0` with the optional key pair configured. -/
def envKey : Env := { env0 with EC2_KEY_NAME := some "mykey" }

/-- `env0` with the optional key pair set to the empty string. -/
def envEmptyKey : Env := { env0 with EC2_KEY_NAME := some "" }

/-- `env0` with `AMI_ID` absent. -/
def envBad : Env := { env0 with AMI_ID := none }

/-- Witness for C1: a two-record batch against the all-success oracle. -/
theorem C1_batch_success_witness :
    (lambda_handler env0 respondAllOk recordsW).1
        = recordsW.map (fun r => run_params env0 r.key)
    ∧ (lambda_handler env0 respondAllOk recordsW).1.length = recordsW.length
    ∧ (∀ p ∈ (lambda_handler env0 respondAllOk recordsW).1,
        p.minCount = 1 ∧ p.maxCount = 1)
    ∧ (lambda_handler env0 respondAllOk recordsW).2
        = Except.ok { statusCode := 200,
                      body := successBody ((List.range recordsW.length).map idsW) } :=
  C1_batch_success env0 respondAllOk idsW recordsW (fun _ _ => rfl)

/-- Witness for C2: the oracle fails on record 2 of the two-record batch. -/
theorem C2_fail_fast_witness :
    (lambda_handler env0 respondFailAt2 recordsW).1
        = (recordsW.take 2).map (fun r => run_params env0 r.key)
    ∧ (lambda_handler env0 respondFailAt2 recordsW).1.length = 2
    ∧ (lambda_handler env0 respondFailAt2 recordsW).2 = Except.error "boom" :=
  C2_fail_fast env0 respondFailAt2 recordsW 2 "boom" (by decide) (by decide)
    (fun i p hi => ⟨"i-0", by
      have h0 : i = 0 := by omega
      subst h0
      rfl⟩)
    (fun _ => rfl)

/-- Witness for C6 at a concrete configuration with `EC2_KEY_NAME = "mykey"`. -/
theorem C6_key_name_witness :
    (run_params envKey "proof-runs/2024-01-15/private_ledger.json").keyName
      = some "mykey" := by
  have hmem : run_params envKey "proof-runs/2024-01-15/private_ledger.json"
      ∈ (lambda_handler envKey respondAllOk
          [{ bucket := "bucket-a",
             key := "proof-runs/2024-01-15/private_ledger.json" }]).1 := by
    simp [lambda_handler, processRecords, respondAllOk]
  exact (C6_key_name envKey respondAllOk _ _ hmem).2 rfl

/-- Witness for C7: equal keys, different buckets. -/
theorem C7_only_key_used_witness :
    lambda_handler env0 respondAllOk
        [{ bucket := "bucket-a", key := "d/k.json" }]
      = lambda_handler env0 respondAllOk
        [{ bucket := "bucket-b", key := "d/k.json" }] :=
  C7_only_key_used env0 respondAllOk _ _ rfl

/-- Witness for C10 at a concrete configuration with `EC2_KEY_NAME = ""`. -/
theorem C10_empty_key_name_witness :
    (run_params envEmptyKey "ledger.json").keyName = none := by
  have hmem : run_params envEmptyKey "ledger.json"
      ∈ (lambda_handler envEmptyKey respondAllOk
          [{ bucket := "bucket-a", key := "ledger.json" }]).1 := by
    simp [lambda_handler, processRecords, respondAllOk]
  exact C10_empty_key_name envEmptyKey respondAllOk _ _ rfl hmem

/-- Witness for C5: a fully configured environment succeeds; dropping
`AMI_ID` fails with the error naming exactly that variable. -/
theorem C5_startup_witness :
    module_init env0 = Except.ok ()
    ∧ module_init envBad
        = Except.error "Missing required environment variables: AMI_ID"
    ∧ "AMI_ID" ∈ missing_vars envBad := by
  have hne : module_init envBad ≠ Except.ok () := by
    intro hc
    rw [show module_init envBad
        = Except.error "Missing required environment variables: AMI_ID" from rfl] at hc
    exact Except.noConfusion hc
  refine ⟨(C5_startup env0).1.mpr (by decide), ?_,
    (C5_startup envBad).2.2.1.mpr (by decide)⟩
  have h := (C5_startup envBad).2.1 hne
  rw [h]
  rfl
